import Mathlib

/-!
Verification of the T2V dataset module (`finetune/datasets/t2v_dataset.py`).

The module is embedded shallowly:

* Tensor scalars are modelled as exact rationals (`ℚ`); the Python code works
  with floating-point tensors, but every arithmetic fact checked here
  (`x / 255 * 2 - 1` at the endpoints, truncation of a quotient of small
  positive integers) is exact in both arithmetics.
* Tensors are nested lists; a 4-D tensor of shape `[F, C, H, W]` is a list of
  `F` frames, each a list of `C` channel planes, and so on.  `shape4`/`shape5`
  read a shape off the nesting the way `torch.Tensor.shape` reports it for the
  rectangular tensors the code manipulates.
* The filesystem is explicit state: a file-existence predicate for the video
  files, a partial map from paths to stored latent tensors (the `.pt` cache),
  and a directory-existence predicate.  `__getitem__` is a state-passing
  function that additionally returns the ordered list of effects it performed,
  so that claims about which operations run (and in which order) are statable.
* External collaborators (`load_prompts`, `load_videos`,
  `preprocess_video_with_resize`, `preprocess_video_with_buckets`,
  `encode_video_fn`) are parameters of the corresponding functions.
-/

namespace T2V

/-- A tensor scalar, modelled as an exact rational number. -/
abbrev Scalar := ℚ

/-- A 1-D tensor (innermost axis). -/
abbrev T1 := List Scalar

/-- A 2-D tensor. -/
abbrev T2 := List T1

/-- A 3-D tensor, e.g. one frame `[C, H, W]`. -/
abbrev T3 := List T2

/-- A 4-D tensor, e.g. a video `[F, C, H, W]` or a latent `[C, F, H, W]`. -/
abbrev T4 := List T3

/-- A 5-D tensor, e.g. a batched video `[B, C, F, H, W]`. -/
abbrev T5 := List T4

/-- Shape of a 4-D tensor, as `torch` reports it for rectangular tensors:
the length of each nesting level along the leading elements. -/
def shape4 (t : T4) : Nat × Nat × Nat × Nat :=
  (t.length, (t.headD []).length, ((t.headD []).headD []).length,
    (((t.headD []).headD []).headD []).length)

/-- Shape of a 5-D tensor. -/
def shape5 (t : T5) : Nat × Nat × Nat × Nat × Nat :=
  (t.length, shape4 (t.headD []))

/-- A filesystem path, split as `pathlib.Path` exposes it: the parent
directory (as components), the stem, and the extension. -/
structure FsPath where
  parent : List String
  stem : String
  ext : String
deriving DecidableEq

instance : Inhabited FsPath := ⟨⟨[], "", ""⟩⟩

/-- `video.parent / "latent"`: the latent sibling directory of a video. -/
def FsPath.latentDir (v : FsPath) : List String :=
  v.parent ++ ["latent"]

/-- `latent_dir / (video.stem + ".pt")`: the deterministic cache-entry path
for a video. -/
def FsPath.encodedVideoPath (v : FsPath) : FsPath :=
  ⟨v.latentDir, v.stem, "pt"⟩

/-- Filesystem state visible to the dataset: which paths are existing files,
which cache entries hold which latent tensor, and which directories exist. -/
structure FS where
  isFile : FsPath → Bool
  cache : FsPath → Option T4
  dirs : List String → Bool

/-- `Path.mkdir(parents=True, exist_ok=True)` restricted to the directory the
code creates: afterwards the directory exists; nothing else changes. -/
def FS.mkdir (fs : FS) (d : List String) : FS :=
  { fs with dirs := fun x => if x = d then true else fs.dirs x }

/-- `torch.save(t, p)`: the cache entry at `p` now holds `t`. -/
def FS.writeCache (fs : FS) (p : FsPath) (t : T4) : FS :=
  { fs with
    cache := fun x => if x = p then some t else fs.cache x,
    isFile := fun x => if x = p then true else fs.isFile x }

/-- The two configuration errors `BaseT2VDataset.__init__` can raise, carrying
the data its `ValueError` messages interpolate. -/
inductive ConfigError where
  | missingFile (path : FsPath)
  | countMismatch (numPrompts numVideos : Nat)
deriving DecidableEq

/-- The state a successfully constructed `BaseT2VDataset` holds (prompts and
video paths; device and encoder are passed where they are used). -/
structure BaseT2VDataset where
  prompts : List String
  videos : List FsPath
deriving DecidableEq

/-- `BaseT2VDataset.__init__` after `load_prompts`/`load_videos` (external
collaborators, so their results are the arguments): first the file-existence
check over the video list (`any` + `next` over the same generator, i.e. the
first missing path in list order), then the prompt/video count check. -/
def BaseT2VDataset.init (prompts : List String) (videos : List FsPath)
    (fs : FS) : Except ConfigError BaseT2VDataset :=
  match videos.find? (fun p => ! fs.isFile p) with
  | some missing => .error (.missingFile missing)
  | none =>
    if videos.length ≠ prompts.length then
      .error (.countMismatch prompts.length videos.length)
    else
      .ok { prompts := prompts, videos := videos }

/-- `BaseT2VDataset.__len__`. -/
def BaseT2VDataset.len (self : BaseT2VDataset) : Nat :=
  self.videos.length

/-- `self.videos[index]`. -/
def BaseT2VDataset.videoAt (self : BaseT2VDataset) (i : Nat) : FsPath :=
  self.videos.getD i default

/-- `self.prompts[index]`. -/
def BaseT2VDataset.promptAt (self : BaseT2VDataset) (i : Nat) : String :=
  self.prompts.getD i ""

/-- The per-pixel map of the `transforms.Lambda`:
`lambda x: x / 255.0 * 2.0 - 1.0`. -/
def frame_transform (x : Scalar) : Scalar :=
  x / 255 * 2 - 1

/-- Elementwise application of a scalar map to one frame `[C, H, W]`
(the `Lambda` broadcasts over the whole frame tensor). -/
def mapFrame (g : Scalar → Scalar) (f : T3) : T3 :=
  f.map (fun plane => plane.map (fun row => row.map g))

/-- `T2VDatasetWithResize.video_transform`:
`torch.stack([self.__frame_transform(f) for f in frames], dim=0)`. -/
def T2VDatasetWithResize.video_transform (frames : T4) : T4 :=
  frames.map (mapFrame frame_transform)

/-- `T2VDatasetWithBuckets.video_transform` (textually identical to the
resize variant). -/
def T2VDatasetWithBuckets.video_transform (frames : T4) : T4 :=
  frames.map (mapFrame frame_transform)

/-- `frames.unsqueeze(0)`: insert a singleton batch axis. -/
def unsqueeze0 (t : T4) : T5 :=
  [t]

/-- `frames.permute(0, 2, 1, 3, 4)`: swap axes 1 and 2 of a 5-D tensor, so
`[B, F, C, H, W]` becomes `[B, C, F, H, W]`; entry `(b, c, f, h, w)` of the
result is entry `(b, f, c, h, w)` of the input. -/
def permute02134 (x : T5) : T5 :=
  x.map (fun t => (List.range (t.headD []).length).map
    (fun c => t.map (fun f => f.getD c [])))

/-- The tensor handed to `encode_video_fn`: the transformed frames with a
singleton batch axis inserted and axes permuted to `[B, C, F, H, W]`. -/
def encodeInput (frames : T4) : T5 :=
  permute02134 (unsqueeze0 frames)

/-- The `video_metadata` dict: `shape[1]`, `shape[2]`, `shape[3]` of the
encoded video. -/
structure VideoMetadata where
  num_frames : Nat
  height : Nat
  width : Nat
deriving DecidableEq

/-- `video_metadata` as built from the latent tensor's own shape. -/
def metadataOf (t : T4) : VideoMetadata :=
  ⟨(shape4 t).2.1, (shape4 t).2.2.1, (shape4 t).2.2.2⟩

/-- The record `__getitem__` returns for a single index. -/
structure SampleRecord where
  prompt : String
  encoded_video : T4
  video_metadata : VideoMetadata
deriving DecidableEq

/-- The retrieval argument: `isinstance(index, list)` distinguishes a plain
integer index from a batch of pre-loaded sample objects. -/
inductive Index where
  | single (i : Nat)
  | batch (items : List SampleRecord)

/-- The result of `__getitem__`: either the pass-through batch or one record. -/
inductive ItemResult where
  | passthrough (items : List SampleRecord)
  | item (r : SampleRecord)
deriving DecidableEq

/-- One observable operation performed during retrieval, in program order. -/
inductive Effect where
  | mkdirDir (d : List String)
  | existsCheck (p : FsPath)
  | loadCache (p : FsPath)
  | preprocessCall (p : FsPath)
  | transformCall
  | encodeCall
  | saveCache (p : FsPath)
deriving DecidableEq

/-- `BaseT2VDataset.__getitem__`.  `preprocess` and `videoTransform` stand for
the subclass overrides, `encode` for `self.encode_video_fn`; device moves are
identities in this model.  Returns the result, the final filesystem state and
the ordered effect trace. -/
def BaseT2VDataset.getitem (self : BaseT2VDataset)
    (preprocess : FsPath → T4) (videoTransform : T4 → T4)
    (encode : T5 → T5) (fs : FS) (index : Index) :
    ItemResult × FS × List Effect :=
  match index with
  | .batch items => (.passthrough items, fs, [])
  | .single i =>
    let prompt := self.promptAt i
    let video := self.videoAt i
    let fs1 := fs.mkdir video.latentDir
    let path := video.encodedVideoPath
    match fs1.cache path with
    | some t =>
      (.item ⟨prompt, t, metadataOf t⟩, fs1,
        [.mkdirDir video.latentDir, .existsCheck path, .loadCache path])
    | none =>
      let frames := videoTransform (preprocess video)
      let encoded := (encode (encodeInput frames)).headD []
      (.item ⟨prompt, encoded, metadataOf encoded⟩, fs1.writeCache path encoded,
        [.mkdirDir video.latentDir, .existsCheck path, .preprocessCall video,
          .transformCall, .encodeCall, .saveCache path])

/-- Python `int(...)` applied to an exact quotient: truncation toward zero. -/
def pyInt (q : ℚ) : ℤ :=
  if 0 ≤ q then ⌊q⌋ else -⌊-q⌋

/-- The working bucket set computed in `T2VDatasetWithBuckets.__init__`:
`(int(b[0] / t_ratio), int(b[1] / h_ratio), int(b[2] / w_ratio))` for each raw
bucket `b`, with the Python float division modelled as exact division. -/
def T2VDatasetWithBuckets.video_resolution_buckets
    (raw : List (Nat × Nat × Nat))
    (vae_temporal_compression_ratio : Nat)
    (vae_height_compression_ratio : Nat)
    (vae_width_compression_ratio : Nat) : List (ℤ × ℤ × ℤ) :=
  raw.map (fun b =>
    (pyInt ((b.1 : ℚ) / (vae_temporal_compression_ratio : ℚ)),
     pyInt ((b.2.1 : ℚ) / (vae_height_compression_ratio : ℚ)),
     pyInt ((b.2.2 : ℚ) / (vae_width_compression_ratio : ℚ))))

/-! ## Concrete sample objects used to evaluate the functions above -/

/-- A concrete video path. -/
def sampleVideo : FsPath :=
  ⟨["data"], "vid", "mp4"⟩

/-- A concrete latent tensor of shape `[1, 1, 1, 1]`. -/
def sampleLatent : T4 :=
  [[[[3]]]]

/-- A dataset holding one prompt/video pair. -/
def dsOne : BaseT2VDataset :=
  ⟨["a prompt"], [sampleVideo]⟩

/-- A filesystem where every file exists and the cache holds `sampleLatent`
for `sampleVideo`. -/
def fsHit : FS :=
  ⟨fun _ => true,
    fun p => if p = sampleVideo.encodedVideoPath then some sampleLatent
      else none,
    fun _ => false⟩

/-- A filesystem where every file exists and the cache is empty. -/
def fsEmpty : FS :=
  ⟨fun _ => true, fun _ => none, fun _ => false⟩

/-! ## Helper lemmas -/

/-- `getD` commutes with `map` at in-range indices, whatever the defaults. -/
theorem getD_map_lt {α β : Type} (g : α → β) (d : α) (d2 : β) :
    ∀ (l : List α) (i : Nat), i < l.length → (l.map g).getD i d2 = g (l.getD i d)
  | _ :: _, 0, _ => rfl
  | _ :: l, i + 1, h => getD_map_lt g d d2 l i (by simpa using h)

/-- `find?` for the file-missing predicate returns the first missing path. -/
theorem find?_first_missing (fs : FS) (l1 l2 : List FsPath) (m : FsPath)
    (h1 : ∀ p ∈ l1, fs.isFile p = true) (h2 : fs.isFile m = false) :
    (l1 ++ m :: l2).find? (fun p => ! fs.isFile p) = some m := by
  induction l1 with
  | nil => simp [List.find?, h2]
  | cons a l ih =>
    have ha := h1 a (List.mem_cons_self a l)
    simp only [List.cons_append, List.find?, ha, Bool.not_true]
    exact ih (fun p hp => h1 p (List.mem_cons_of_mem a hp))

/-- Truncating an exact quotient of naturals is floor division. -/
theorem pyInt_natCast_div (a b : Nat) :
    pyInt ((a : ℚ) / (b : ℚ)) = ((a / b : Nat) : ℤ) := by
  have h0 : (0 : ℚ) ≤ (a : ℚ) / (b : ℚ) :=
    div_nonneg (Nat.cast_nonneg a) (Nat.cast_nonneg b)
  rw [pyInt, if_pos h0, Rat.floor_natCast_div_natCast]
  exact (Int.ofNat_tdiv a b).symm

/-! ## Claims -/

/-- C1: for every list of raw buckets and positive compression ratios, the
working bucket set computed at `T2VDatasetWithBuckets` construction equals the
elementwise floor division of each raw bucket by the corresponding ratio. -/
theorem video_resolution_buckets_eq_floorDiv
    (raw : List (Nat × Nat × Nat)) (tR hR wR : Nat)
    (ht : 0 < tR) (hh : 0 < hR) (hw : 0 < wR) :
    T2VDatasetWithBuckets.video_resolution_buckets raw tR hR wR
      = raw.map (fun b =>
          (((b.1 / tR : Nat) : ℤ), ((b.2.1 / hR : Nat) : ℤ),
            ((b.2.2 / wR : Nat) : ℤ))) := by
  simp only [T2VDatasetWithBuckets.video_resolution_buckets, pyInt_natCast_div]

/-- C1 witness at a concrete bucket list and ratio triple. -/
theorem video_resolution_buckets_eq_floorDiv_witness :
    0 < 4 ∧ 0 < 8 ∧ 0 < 8 ∧
    T2VDatasetWithBuckets.video_resolution_buckets
        [(49, 480, 720), (13, 101, 99)] 4 8 8
      = [(49, 480, 720), (13, 101, 99)].map (fun b =>
          (((b.1 / 4 : Nat) : ℤ), ((b.2.1 / 8 : Nat) : ℤ),
            ((b.2.2 / 8 : Nat) : ℤ))) :=
  ⟨by decide, by decide, by decide,
    video_resolution_buckets_eq_floorDiv [(49, 480, 720), (13, 101, 99)] 4 8 8
      (by decide) (by decide) (by decide)⟩

/-- C4: when some listed video path is not an existing file, construction
fails with the missing-file configuration error naming the first missing path
in list order (here: the missing path `m` preceded by existing files `l1`). -/
theorem init_missing_file (prompts : List String) (l1 l2 : List FsPath)
    (m : FsPath) (fs : FS)
    (h1 : ∀ p ∈ l1, fs.isFile p = true) (h2 : fs.isFile m = false) :
    BaseT2VDataset.init prompts (l1 ++ m :: l2) fs
      = .error (.missingFile m) := by
  simp [BaseT2VDataset.init, find?_first_missing fs l1 l2 m h1 h2]

/-- C4 witness: one existing video followed by one missing video. -/
theorem init_missing_file_witness :
    (∀ p ∈ [(⟨[], "good", "mp4"⟩ : FsPath)],
      (FS.mk (fun q => q.stem ≠ "bad") (fun _ => none) (fun _ => false)).isFile p
        = true)
    ∧ (FS.mk (fun q => q.stem ≠ "bad") (fun _ => none)
        (fun _ => false)).isFile ⟨[], "bad", "mp4"⟩ = false
    ∧ BaseT2VDataset.init ["a", "b"]
        ([⟨[], "good", "mp4"⟩] ++ (⟨[], "bad", "mp4"⟩ : FsPath) :: [])
        (FS.mk (fun q => q.stem ≠ "bad") (fun _ => none) (fun _ => false))
      = .error (.missingFile ⟨[], "bad", "mp4"⟩) :=
  ⟨by decide, by decide,
    init_missing_file ["a", "b"] [⟨[], "good", "mp4"⟩] [] ⟨[], "bad", "mp4"⟩
      (FS.mk (fun q => q.stem ≠ "bad") (fun _ => none) (fun _ => false))
      (by decide) (by decide)⟩

/-- C5: with every listed video existing, a prompt/video count mismatch makes
construction fail with the count-mismatch error carrying both counts; with
equal counts construction succeeds and the dataset length equals the number
of videos and the number of prompts. -/
theorem init_count_mismatch_and_len (prompts : List String)
    (videos : List FsPath) (fs : FS)
    (hall : ∀ p ∈ videos, fs.isFile p = true) :
    (videos.length ≠ prompts.length →
      BaseT2VDataset.init prompts videos fs
        = .error (.countMismatch prompts.length videos.length))
    ∧ (videos.length = prompts.length →
      BaseT2VDataset.init prompts videos fs = .ok ⟨prompts, videos⟩
      ∧ (⟨prompts, videos⟩ : BaseT2VDataset).len = videos.length
      ∧ (⟨prompts, videos⟩ : BaseT2VDataset).len = prompts.length) := by
  have hnone : videos.find? (fun p => ! fs.isFile p) = none :=
    List.find?_eq_none.mpr (fun p hp => by simp [hall p hp])
  constructor
  · intro hne
    simp [BaseT2VDataset.init, hnone, hne]
  · intro heq
    refine ⟨by simp [BaseT2VDataset.init, hnone, heq], rfl, ?_⟩
    simpa [BaseT2VDataset.len] using heq

/-- C5 witness: one existing video against zero prompts (mismatch branch),
stated together with the vacuous equal-counts branch. -/
theorem init_count_mismatch_and_len_witness :
    (∀ p ∈ [(⟨[], "v", "mp4"⟩ : FsPath)],
      (FS.mk (fun _ => true) (fun _ => none) (fun _ => false)).isFile p = true)
    ∧ (([(⟨[], "v", "mp4"⟩ : FsPath)].length ≠ ([] : List String).length →
        BaseT2VDataset.init [] [⟨[], "v", "mp4"⟩]
            (FS.mk (fun _ => true) (fun _ => none) (fun _ => false))
          = .error (.countMismatch 0 1))
      ∧ ([(⟨[], "v", "mp4"⟩ : FsPath)].length = ([] : List String).length →
        BaseT2VDataset.init [] [⟨[], "v", "mp4"⟩]
            (FS.mk (fun _ => true) (fun _ => none) (fun _ => false))
          = .ok ⟨[], [⟨[], "v", "mp4"⟩]⟩
        ∧ (⟨[], [⟨[], "v", "mp4"⟩]⟩ : BaseT2VDataset).len
            = [(⟨[], "v", "mp4"⟩ : FsPath)].length
        ∧ (⟨[], [⟨[], "v", "mp4"⟩]⟩ : BaseT2VDataset).len
            = ([] : List String).length)) :=
  ⟨by decide,
    init_count_mismatch_and_len [] [⟨[], "v", "mp4"⟩]
      (FS.mk (fun _ => true) (fun _ => none) (fun _ => false)) (by decide)⟩

/-- C9: when a video is missing and the counts also differ, the error raised
is the missing-file one, not the count mismatch: the existence check runs
first. -/
theorem init_missing_file_precedes_count (prompts : List String)
    (l1 l2 : List FsPath) (m : FsPath) (fs : FS)
    (h1 : ∀ p ∈ l1, fs.isFile p = true) (h2 : fs.isFile m = false)
    (hcount : (l1 ++ m :: l2).length ≠ prompts.length) :
    BaseT2VDataset.init prompts (l1 ++ m :: l2) fs = .error (.missingFile m)
    ∧ BaseT2VDataset.init prompts (l1 ++ m :: l2) fs
        ≠ .error (.countMismatch prompts.length (l1 ++ m :: l2).length) := by
  have hmain :
      BaseT2VDataset.init prompts (l1 ++ m :: l2) fs
        = .error (.missingFile m) := by
    simp [BaseT2VDataset.init, find?_first_missing fs l1 l2 m h1 h2]
  exact ⟨hmain, by simp [hmain]⟩

/-- C9 witness: a missing sole video with zero prompts. -/
theorem init_missing_file_precedes_count_witness :
    (∀ p ∈ ([] : List FsPath),
      (FS.mk (fun _ => false) (fun _ => none) (fun _ => false)).isFile p = true)
    ∧ (FS.mk (fun _ => false) (fun _ => none)
        (fun _ => false)).isFile ⟨[], "gone", "mp4"⟩ = false
    ∧ (([] ++ (⟨[], "gone", "mp4"⟩ : FsPath) :: []).length
        ≠ ([] : List String).length)
    ∧ BaseT2VDataset.init [] ([] ++ (⟨[], "gone", "mp4"⟩ : FsPath) :: [])
        (FS.mk (fun _ => false) (fun _ => none) (fun _ => false))
      = .error (.missingFile ⟨[], "gone", "mp4"⟩)
    ∧ BaseT2VDataset.init [] ([] ++ (⟨[], "gone", "mp4"⟩ : FsPath) :: [])
        (FS.mk (fun _ => false) (fun _ => none) (fun _ => false))
      ≠ .error (.countMismatch ([] : List String).length
          ([] ++ (⟨[], "gone", "mp4"⟩ : FsPath) :: []).length) :=
  ⟨by decide, by decide, by decide,
    (init_missing_file_precedes_count [] [] [] ⟨[], "gone", "mp4"⟩
      (FS.mk (fun _ => false) (fun _ => none) (fun _ => false))
      (by decide) (by decide) (by decide)).1,
    (init_missing_file_precedes_count [] [] [] ⟨[], "gone", "mp4"⟩
      (FS.mk (fun _ => false) (fun _ => none) (fun _ => false))
      (by decide) (by decide) (by decide)).2⟩

/-- C3: a list index is returned unchanged, with the filesystem untouched and
an empty effect trace (no lookup, no existence check, no mkdir, no read or
write). -/
theorem getitem_list_passthrough (self : BaseT2VDataset) (pp : FsPath → T4)
    (vt : T4 → T4) (e : T5 → T5) (fs : FS) (items : List SampleRecord) :
    self.getitem pp vt e fs (.batch items) = (.passthrough items, fs, []) :=
  rfl

/-- C10: construction from an empty prompt list and an empty video list
succeeds, and the resulting dataset has length 0. -/
theorem init_empty (fs : FS) :
    BaseT2VDataset.init [] [] fs = .ok ⟨[], []⟩
    ∧ (⟨[], []⟩ : BaseT2VDataset).len = 0 :=
  ⟨rfl, rfl⟩

/-- C3 witness: the pass-through evaluated on a concrete dataset and state. -/
theorem getitem_list_passthrough_witness :
    dsOne.getitem (fun _ => []) (fun t => t) (fun t => t) fsHit (.batch [])
      = (.passthrough [], fsHit, []) :=
  getitem_list_passthrough dsOne (fun _ => []) (fun t => t) (fun t => t)
    fsHit []

/-- C10 witness: the empty construction evaluated on a concrete state. -/
theorem init_empty_witness :
    BaseT2VDataset.init [] [] fsEmpty = .ok ⟨[], []⟩
    ∧ (⟨[], []⟩ : BaseT2VDataset).len = 0 :=
  init_empty fsEmpty

/-- C6: both concrete `video_transform`s preserve frame count and order and
apply `x / 255 * 2 - 1` to each pixel independently; the map sends 0 to -1
and 255 to 1 exactly. -/
theorem video_transform_affine (frames : T4) (i c h w : Nat)
    (hi : i < frames.length)
    (hc : c < (frames.getD i []).length)
    (hh : h < ((frames.getD i []).getD c []).length)
    (hw : w < (((frames.getD i []).getD c []).getD h []).length) :
    (T2VDatasetWithResize.video_transform frames).length = frames.length
    ∧ (T2VDatasetWithBuckets.video_transform frames).length = frames.length
    ∧ ((((T2VDatasetWithResize.video_transform frames).getD i []).getD c
          []).getD h []).getD w 0
        = frame_transform ((((frames.getD i []).getD c []).getD h []).getD w 0)
    ∧ ((((T2VDatasetWithBuckets.video_transform frames).getD i []).getD c
          []).getD h []).getD w 0
        = frame_transform ((((frames.getD i []).getD c []).getD h []).getD w 0)
    ∧ frame_transform 0 = -1
    ∧ frame_transform 255 = 1 := by
  have hpix :
      ((((frames.map (mapFrame frame_transform)).getD i []).getD c
          []).getD h []).getD w 0
        = frame_transform
            ((((frames.getD i []).getD c []).getD h []).getD w 0) := by
    rw [getD_map_lt (mapFrame frame_transform) [] [] frames i hi]
    rw [mapFrame,
      getD_map_lt (fun plane => plane.map (fun row => row.map frame_transform))
        [] [] (frames.getD i []) c hc]
    rw [getD_map_lt (fun row => row.map frame_transform) [] []
      ((frames.getD i []).getD c []) h hh]
    rw [getD_map_lt frame_transform 0 0
      (((frames.getD i []).getD c []).getD h []) w hw]
  refine ⟨List.length_map _ _, List.length_map _ _, hpix, hpix, ?_, ?_⟩
  · norm_num [frame_transform]
  · norm_num [frame_transform]

/-- C6 witness on a 1-frame video holding the pixels 0 and 255. -/
theorem video_transform_affine_witness :
    0 < ([[[[0, 255]]]] : T4).length
    ∧ 0 < (([[[[0, 255]]]] : T4).getD 0 []).length
    ∧ 0 < ((([[[[0, 255]]]] : T4).getD 0 []).getD 0 []).length
    ∧ 1 < (((([[[[0, 255]]]] : T4).getD 0 []).getD 0 []).getD 0 []).length
    ∧ ((T2VDatasetWithResize.video_transform [[[[0, 255]]]]).length
        = ([[[[0, 255]]]] : T4).length
      ∧ (T2VDatasetWithBuckets.video_transform [[[[0, 255]]]]).length
        = ([[[[0, 255]]]] : T4).length
      ∧ ((((T2VDatasetWithResize.video_transform [[[[0, 255]]]]).getD 0
            []).getD 0 []).getD 0 []).getD 1 0
        = frame_transform ((((([[[[0, 255]]]] : T4).getD 0 []).getD 0
            []).getD 0 []).getD 1 0)
      ∧ ((((T2VDatasetWithBuckets.video_transform [[[[0, 255]]]]).getD 0
            []).getD 0 []).getD 0 []).getD 1 0
        = frame_transform ((((([[[[0, 255]]]] : T4).getD 0 []).getD 0
            []).getD 0 []).getD 1 0)
      ∧ frame_transform 0 = -1
      ∧ frame_transform 255 = 1) :=
  ⟨by decide, by decide, by decide, by decide,
    video_transform_affine [[[[0, 255]]]] 0 0 0 1
      (by decide) (by decide) (by decide) (by decide)⟩

/-- Shape of the tensor handed to the encoder: inserting the batch axis and
permuting `[1, F, C, H, W]` to `[1, C, F, H, W]`. -/
theorem shape5_encodeInput (frames : T4) (F C H W : Nat)
    (hsh : shape4 frames = (F, C, H, W)) (hF : 0 < F) (hC : 0 < C) :
    shape5 (encodeInput frames) = (1, C, F, H, W) := by
  simp only [shape4, Prod.mk.injEq] at hsh
  obtain ⟨h1, h2, h3, h4⟩ := hsh
  obtain ⟨f0, fr, rfl⟩ : ∃ a l, frames = a :: l := by
    cases frames with
    | nil => exact absurd (h1 ▸ hF) (by simp)
    | cons a l => exact ⟨a, l, rfl⟩
  simp only [List.headD_cons] at h2 h3 h4
  obtain ⟨p0, ps, rfl⟩ : ∃ a l, f0 = a :: l := by
    cases f0 with
    | nil => exact absurd (h2 ▸ hC) (by simp)
    | cons a l => exact ⟨a, l, rfl⟩
  simp only [List.length_cons] at h1 h2
  simp only [List.headD_cons] at h3 h4
  simp only [shape5, shape4, encodeInput, unsqueeze0, permute02134,
    List.map_cons, List.map_nil, List.headD_cons, List.length_cons,
    List.length_map, List.length_range, List.range_succ_eq_map,
    List.getD_cons_zero, Prod.mk.injEq]
  exact ⟨rfl, h2, h1, h3, h4⟩

/-- C2: on a cache hit (and only the directory-creation side effect aside),
retrieval returns the stored latent with metadata read from its shape, the
effect trace contains no preprocess, transform or encode call, and a second
retrieval from the resulting state returns the same record even when
preprocess, transform and encode are all replaced. -/
theorem getitem_cache_hit (self : BaseT2VDataset) (pp pp2 : FsPath → T4)
    (vt vt2 : T4 → T4) (e1 e2 : T5 → T5) (fs : FS) (i : Nat) (t : T4)
    (hi : i < self.len)
    (hc : fs.cache (self.videoAt i).encodedVideoPath = some t) :
    (self.getitem pp vt e1 fs (.single i)).1
      = .item ⟨self.promptAt i, t, metadataOf t⟩
    ∧ (self.getitem pp vt e1 fs (.single i)).2.2
      = [.mkdirDir (self.videoAt i).latentDir,
         .existsCheck (self.videoAt i).encodedVideoPath,
         .loadCache (self.videoAt i).encodedVideoPath]
    ∧ (self.getitem pp2 vt2 e2 ((self.getitem pp vt e1 fs (.single i)).2.1)
          (.single i)).1
      = (self.getitem pp vt e1 fs (.single i)).1 := by
  refine ⟨?_, ?_, ?_⟩ <;>
    simp [BaseT2VDataset.getitem, FS.mkdir, hc]

/-- C2 witness: a one-sample dataset whose latent is already cached. -/
theorem getitem_cache_hit_witness :
    0 < dsOne.len
    ∧ fsHit.cache (dsOne.videoAt 0).encodedVideoPath = some sampleLatent
    ∧ ((dsOne.getitem (fun _ => []) (fun t => t) (fun t => t) fsHit
          (.single 0)).1
        = .item ⟨dsOne.promptAt 0, sampleLatent, metadataOf sampleLatent⟩
      ∧ (dsOne.getitem (fun _ => []) (fun t => t) (fun t => t) fsHit
          (.single 0)).2.2
        = [.mkdirDir (dsOne.videoAt 0).latentDir,
           .existsCheck (dsOne.videoAt 0).encodedVideoPath,
           .loadCache (dsOne.videoAt 0).encodedVideoPath]
      ∧ (dsOne.getitem (fun _ => [[[[7]]]]) (fun _ => [[[[8]]]])
            (fun _ => [[[[[9]]]]])
            ((dsOne.getitem (fun _ => []) (fun t => t) (fun t => t) fsHit
              (.single 0)).2.1)
            (.single 0)).1
        = (dsOne.getitem (fun _ => []) (fun t => t) (fun t => t) fsHit
            (.single 0)).1) :=
  ⟨by decide, by decide,
    getitem_cache_hit dsOne (fun _ => []) (fun _ => [[[[7]]]]) (fun t => t)
      (fun _ => [[[[8]]]]) (fun t => t) (fun _ => [[[[[9]]]]]) fsHit 0
      sampleLatent (by decide) (by decide)⟩

/-- C7: on a cache miss the encoder receives the transformed frames with a
singleton batch axis permuted to `[B, C, F, H, W]`; the returned latent is
the batch-stripped encoder output, its shape is the tail of the encoder
output's 5-D shape, and the record's metadata is dimensions 1, 2, 3 of the
latent's own shape. -/
theorem getitem_cache_miss_shapes (self : BaseT2VDataset)
    (pp : FsPath → T4) (vt : T4 → T4) (e : T5 → T5) (fs : FS) (i : Nat)
    (F C H W : Nat)
    (hmiss : fs.cache (self.videoAt i).encodedVideoPath = none)
    (hsh : shape4 (vt (pp (self.videoAt i))) = (F, C, H, W))
    (hF : 0 < F) (hC : 0 < C) :
    shape5 (encodeInput (vt (pp (self.videoAt i)))) = (1, C, F, H, W)
    ∧ (self.getitem pp vt e fs (.single i)).1
      = .item ⟨self.promptAt i,
               (e (encodeInput (vt (pp (self.videoAt i))))).headD [],
               metadataOf
                 ((e (encodeInput (vt (pp (self.videoAt i))))).headD [])⟩
    ∧ shape4 ((e (encodeInput (vt (pp (self.videoAt i))))).headD [])
      = (shape5 (e (encodeInput (vt (pp (self.videoAt i)))))).2 := by
  refine ⟨shape5_encodeInput _ F C H W hsh hF hC, ?_, rfl⟩
  simp [BaseT2VDataset.getitem, FS.mkdir, hmiss]

/-- C7 witness: a one-sample dataset with an empty cache, identity transform
and identity encoder on a `[1, 1, 1, 1]` frame tensor. -/
theorem getitem_cache_miss_shapes_witness :
    fsEmpty.cache (dsOne.videoAt 0).encodedVideoPath = none
    ∧ shape4 ([[[[5]]]] : T4) = (1, 1, 1, 1)
    ∧ 0 < 1
    ∧ (shape5 (encodeInput ([[[[5]]]] : T4)) = (1, 1, 1, 1, 1)
      ∧ (dsOne.getitem (fun _ => [[[[5]]]]) (fun t => t) (fun t => t) fsEmpty
            (.single 0)).1
        = .item ⟨dsOne.promptAt 0, (encodeInput ([[[[5]]]] : T4)).headD [],
                 metadataOf ((encodeInput ([[[[5]]]] : T4)).headD [])⟩
      ∧ shape4 ((encodeInput ([[[[5]]]] : T4)).headD [])
        = (shape5 (encodeInput ([[[[5]]]] : T4))).2) :=
  ⟨by decide, by decide, by decide,
    getitem_cache_miss_shapes dsOne (fun _ => [[[[5]]]]) (fun t => t)
      (fun t => t) fsEmpty 0 1 1 1 1 (by decide) (by decide) (by decide)
      (by decide)⟩

/-- C8: for every valid single-index retrieval, hit or miss, the first two
effects are creating the latent sibling directory and only then checking the
cache entry, and the directory exists in the resulting filesystem state. -/
theorem getitem_mkdir_before_exists (self : BaseT2VDataset)
    (pp : FsPath → T4) (vt : T4 → T4) (e : T5 → T5) (fs : FS) (i : Nat)
    (hi : i < self.len) :
    ((self.getitem pp vt e fs (.single i)).2.1).dirs
        (self.videoAt i).latentDir = true
    ∧ (self.getitem pp vt e fs (.single i)).2.2.take 2
      = [.mkdirDir (self.videoAt i).latentDir,
         .existsCheck (self.videoAt i).encodedVideoPath] := by
  cases hcc : fs.cache (self.videoAt i).encodedVideoPath with
  | some t =>
    constructor <;>
      simp [BaseT2VDataset.getitem, FS.mkdir, hcc]
  | none =>
    constructor <;>
      simp [BaseT2VDataset.getitem, FS.mkdir, FS.writeCache, hcc]

/-- C8 witness: a cache-hit retrieval still creates the latent directory
before the existence check. -/
theorem getitem_mkdir_before_exists_witness :
    0 < dsOne.len
    ∧ (((dsOne.getitem (fun _ => []) (fun t => t) (fun t => t) fsHit
          (.single 0)).2.1).dirs (dsOne.videoAt 0).latentDir = true
      ∧ (dsOne.getitem (fun _ => []) (fun t => t) (fun t => t) fsHit
          (.single 0)).2.2.take 2
        = [.mkdirDir (dsOne.videoAt 0).latentDir,
           .existsCheck (dsOne.videoAt 0).encodedVideoPath]) :=
  ⟨by decide,
    getitem_mkdir_before_exists dsOne (fun _ => []) (fun t => t) (fun t => t)
      fsHit 0 (by decide)⟩

end T2V
